import Mathlib

/-!
Shallow embedding of the CodeSensei backend (`app.py`): a Flask service with
five routes over a Firestore-style hierarchical document store
(users → sessions → messages) and one outbound generative-model call.

External collaborators are modelled as parameters:
* token verification (`auth.verify_id_token`) is an oracle
  `verify : String → Option String` mapping an id token to a decoded uid;
* the generative model (`model.generate_content` plus the defensive text
  extraction) is an oracle `gen : List Turn → Except String String`, where
  `Except.error e` models the call raising an exception with message `e`;
* the document store is modelled as explicit state (`Store`), with
  `SERVER_TIMESTAMP` realised by a monotone clock and Firestore auto ids by a
  counter; `order_by` is realised by `List.insertionSort` on the field.
-/

namespace CodeSensei

/-- A document of a session's `messages` subcollection:
`{role, content, timestamp}` as written by the `chat` route. -/
structure MessageDoc where
  role : String
  content : String
  timestamp : Nat
deriving Repr, DecidableEq

/-- A document of a user's `sessions` subcollection: `{name, created_at}` as
written by `create_session`. -/
structure SessionDoc where
  name : String
  created_at : Nat
deriving Repr, DecidableEq

/-- The document store: sessions keyed by `(uid, session_id)`, messages keyed
by the owning `(uid, session_id)` (message auto ids are never read back, so
they are not tracked).  `clock` yields `SERVER_TIMESTAMP` values, `nextId`
yields Firestore auto-generated document ids. -/
structure Store where
  sessions : List ((String × String) × SessionDoc)
  messages : List ((String × String) × MessageDoc)
  clock : Nat
  nextId : Nat
deriving Repr, DecidableEq

def emptyStore : Store :=
  { sessions := [], messages := [], clock := 0, nextId := 0 }

/-- A Firestore auto-generated document id. -/
def autoId (n : Nat) : String :=
  "auto-" ++ toString n

/-- `document(id).set(data)`: create or overwrite the session document at the
given key. -/
def upsertSession (key : String × String) (doc : SessionDoc) :
    List ((String × String) × SessionDoc) → List ((String × String) × SessionDoc)
  | [] => [(key, doc)]
  | e :: es => if e.1 = key then (key, doc) :: es else e :: upsertSession key doc es

/-- `sessions.document(doc_id).set({name, created_at: SERVER_TIMESTAMP})`. -/
def setSessionDoc (st : Store) (uid sid name : String) : Store :=
  { st with
    sessions := upsertSession (uid, sid) { name := name, created_at := st.clock } st.sessions
    clock := st.clock + 1 }

/-- `messages.add({role, content, timestamp: SERVER_TIMESTAMP})`. -/
def addMessageDoc (st : Store) (uid sid role content : String) : Store :=
  { st with
    messages :=
      st.messages ++ [((uid, sid), { role := role, content := content, timestamp := st.clock })]
    clock := st.clock + 1 }

/-- The session documents of one user, with their document ids. -/
def sessionsOf (st : Store) (uid : String) : List (String × SessionDoc) :=
  st.sessions.filterMap (fun e => if e.1.1 = uid then some (e.1.2, e.2) else none)

/-- The message documents of one session of one user. -/
def messagesOf (st : Store) (uid sid : String) : List MessageDoc :=
  st.messages.filterMap (fun e => if e.1 = (uid, sid) then some e.2 else none)

/-- Point lookup of a session document by its key. -/
def lookupSession (st : Store) (uid sid : String) : Option SessionDoc :=
  (st.sessions.find? (fun e => decide (e.1 = (uid, sid)))).map (fun e => e.2)

/-- `order_by('timestamp')` (ascending). -/
def byTimestamp (a b : MessageDoc) : Prop :=
  a.timestamp ≤ b.timestamp

instance : DecidableRel byTimestamp :=
  fun a b => Nat.decLe a.timestamp b.timestamp

instance : IsTotal MessageDoc byTimestamp :=
  ⟨fun a b => Nat.le_total a.timestamp b.timestamp⟩

instance : IsTrans MessageDoc byTimestamp :=
  ⟨fun _ _ _ hab hbc => Nat.le_trans hab hbc⟩

/-- `order_by('timestamp', direction=DESCENDING)`. -/
def byTimestampDesc (a b : MessageDoc) : Prop :=
  b.timestamp ≤ a.timestamp

instance : DecidableRel byTimestampDesc :=
  fun a b => Nat.decLe b.timestamp a.timestamp

instance : IsTotal MessageDoc byTimestampDesc :=
  ⟨fun a b => Nat.le_total b.timestamp a.timestamp⟩

instance : IsTrans MessageDoc byTimestampDesc :=
  ⟨fun _ _ _ hab hbc => Nat.le_trans hbc hab⟩

/-- `order_by('created_at', direction=DESCENDING)` over `(doc.id, doc)` pairs. -/
def byCreatedDesc (a b : String × SessionDoc) : Prop :=
  b.2.created_at ≤ a.2.created_at

instance : DecidableRel byCreatedDesc :=
  fun a b => Nat.decLe b.2.created_at a.2.created_at

instance : IsTotal (String × SessionDoc) byCreatedDesc :=
  ⟨fun a b => Nat.le_total b.2.created_at a.2.created_at⟩

instance : IsTrans (String × SessionDoc) byCreatedDesc :=
  ⟨fun _ _ _ hab hbc => Nat.le_trans hbc hab⟩

/-- Python `sep in`-free splitting core: `str.split(sep)` for a non-empty
separator, over character lists, with fuel for termination (fuel set to the
subject's length always suffices). -/
def splitCharsAux (sep : List Char) : Nat → List Char → List Char → List (List Char)
  | 0, s, acc => [acc.reverse ++ s]
  | _ + 1, [], acc => [acc.reverse]
  | fuel + 1, c :: cs, acc =>
    if sep.isPrefixOf (c :: cs) then
      acc.reverse :: splitCharsAux sep fuel (List.drop sep.length (c :: cs)) []
    else
      splitCharsAux sep fuel cs (c :: acc)

/-- Python `s.split(sep)` for a non-empty separator. -/
def pySplit (s sep : String) : List String :=
  (splitCharsAux sep.data s.data.length s.data []).map String.mk

/-- Truthiness of an optional string, as Python `if x:` / `if not x:` sees a
JSON field that may be missing (`none`) or present: `None` and `""` are falsy. -/
def strTruthy : Option String → Bool
  | none => false
  | some s => !s.isEmpty

/-- `verify_token` (app.py:72-79): take the `Authorization` header, split on
`'Bearer '` and take index 1 (an out-of-range index raises, caught to `None`),
then verify the id token with the identity provider (failure caught to
`None`). -/
def verify_token (verify : String → Option String) (authorization : Option String) :
    Option String :=
  match authorization with
  | none => none
  | some header =>
    match (pySplit header "Bearer ").get? 1 with
    | none => none
    | some id_token => verify id_token

/-- `CREATOR_NOTE` (app.py:43). -/
def CREATOR_NOTE : String :=
  "Creator: Syed Gohar Hussain."

/-- `SYSTEM_PROMPTS["coding_coach"]` (app.py:45-52). -/
def codingCoachPrompt : String :=
  CREATOR_NOTE ++ " " ++
    ("You are CodeSensei, a 'Coding Coach'. Your goal is to help users learn by guiding them, " ++
     "not giving direct answers. Use the Socratic method. Ask probing questions that lead them " ++
     "to the solution. Provide small hints and conceptual explanations. Never write whole blocks of code. " ++
     "Your tone is encouraging, wise, and patient, like a sensei.")

/-- `SYSTEM_PROMPTS["debugging_assistant"]` (app.py:53-60). -/
def debuggingAssistantPrompt : String :=
  CREATOR_NOTE ++ " " ++
    ("You are CodeSensei, a 'Debugging Assistant'. The user will provide code with errors. " ++
     "Analyze it carefully. Do not fix the code for them. Instead, identify the errors and give hints " ++
     "about where to look and what concepts might be involved. For example, say 'Look closely at your loop on line 5. " ++
     "What happens on the final iteration?' or 'That error often relates to variable types. Have you checked the type of 'x'?'")

/-- `SYSTEM_PROMPTS["general"]` (app.py:61-68). -/
def generalPrompt : String :=
  CREATOR_NOTE ++ " " ++
    ("You are CodeSensei, a helpful AI assistant with a Socratic teaching style. For any general question, " ++
     "your role is to foster understanding and critical thinking. Break down complex topics into smaller, " ++
     "manageable parts. Ask questions to gauge the user's understanding before providing more information. " ++
     "Guide them towards discovering the answer themselves.")

/-- The `SYSTEM_PROMPTS` dictionary (app.py:44-69) as a partial map. -/
def SYSTEM_PROMPTS (key : String) : Option String :=
  if key = "coding_coach" then some codingCoachPrompt
  else if key = "debugging_assistant" then some debuggingAssistantPrompt
  else if key = "general" then some generalPrompt
  else none

/-- `SYSTEM_PROMPTS.get(mode, SYSTEM_PROMPTS["general"])` (app.py:187). -/
def systemInstructionFor (mode : String) : String :=
  (SYSTEM_PROMPTS mode).getD generalPrompt

/-- One conversation turn sent to the generative model:
`{"role": ..., "parts": [...]}`. -/
structure Turn where
  role : String
  parts : List String
deriving Repr, DecidableEq

/-- One fetched history document mapped to a model-facing turn (app.py:181-182):
stored role `'assistant'` becomes `"model"`, every other stored role becomes
`'user'`, and the parts hold the stored content. -/
def historyTurn (m : MessageDoc) : Turn :=
  { role := if m.role = "assistant" then "model" else "user", parts := [m.content] }

/-- The canned acknowledgement turn (app.py:191). -/
def ackTurn : Turn :=
  { role := "model", parts := ["Understood. I will act as CodeSensei and guide the user."] }

/-- JSON response bodies the five routes can produce. -/
inductive JsonBody where
  | errorMsg (msg : String)
  | errorDetails (msg details : String)
  | sessionList (items : List (String × String))
  | sessionCreated (session_id name : String)
  | messageList (items : List MessageDoc)
  | deleteOk
  | chatReply (text : String)
deriving Repr, DecidableEq

/-- An HTTP response: a JSON body and a status code. -/
structure HttpResponse where
  status : Nat
  body : JsonBody
deriving Repr, DecidableEq

/-- `GET /api/get_chat_sessions` (app.py:83-95): authenticate, then list the
user's session documents ordered by `created_at` descending, each rendered as
`{id, name}`. -/
def get_chat_sessions (verify : String → Option String) (authorization : Option String)
    (st : Store) : HttpResponse × Store :=
  match verify_token verify authorization with
  | none => (⟨401, .errorMsg "Unauthorized"⟩, st)
  | some uid =>
    let ordered := List.insertionSort byCreatedDesc (sessionsOf st uid)
    (⟨200, .sessionList (ordered.map (fun e => (e.1, e.2.name)))⟩, st)

/-- The optional JSON body of `POST /api/create_session`. -/
structure CreateSessionBody where
  session_name : Option String
deriving Repr, DecidableEq

/-- `POST /api/create_session` (app.py:97-120): authenticate; a truthy
`session_name` is used verbatim as the new document's id and stored name,
otherwise an auto-generated id is used and the stored name defaults to
`"Chat - <timestamp>"`; the response carries the resulting id and name.
`nowLabel` stands for `datetime.now(utc).strftime("%Y-%m-%d %H:%M")`. -/
def create_session (verify : String → Option String) (nowLabel : String)
    (authorization : Option String) (body : Option CreateSessionBody) (st : Store) :
    HttpResponse × Store :=
  match verify_token verify authorization with
  | none => (⟨401, .errorMsg "Unauthorized"⟩, st)
  | some uid =>
    let session_name := (body.getD { session_name := none }).session_name
    if strTruthy session_name then
      let doc_id := session_name.getD ""
      (⟨200, .sessionCreated doc_id (session_name.getD "")⟩,
        setSessionDoc st uid doc_id (session_name.getD ""))
    else
      let doc_id := autoId st.nextId
      let name := "Chat - " ++ nowLabel
      (⟨200, .sessionCreated doc_id name⟩,
        setSessionDoc { st with nextId := st.nextId + 1 } uid doc_id name)

/-- `GET /api/get_session_messages/<session_id>` (app.py:123-134): authenticate,
then return the session's message documents ordered by `timestamp` ascending. -/
def get_session_messages (verify : String → Option String) (session_id : String)
    (authorization : Option String) (st : Store) : HttpResponse × Store :=
  match verify_token verify authorization with
  | none => (⟨401, .errorMsg "Unauthorized"⟩, st)
  | some uid =>
    (⟨200, .messageList (List.insertionSort byTimestamp (messagesOf st uid session_id))⟩, st)

/-- `DELETE /api/delete_session/<session_id>` (app.py:137-149): authenticate,
then delete the session document (subcollections are not deleted — the source
comments flag this). -/
def delete_session (verify : String → Option String) (session_id : String)
    (authorization : Option String) (st : Store) : HttpResponse × Store :=
  match verify_token verify authorization with
  | none => (⟨401, .errorMsg "Unauthorized"⟩, st)
  | some uid =>
    (⟨200, .deleteOk⟩,
      { st with sessions := st.sessions.filter (fun e => !decide (e.1 = (uid, session_id))) })

/-- The JSON body of `POST /api/chat`: each field may be missing. -/
structure ChatBody where
  message : Option String
  mode : Option String
  session_id : Option String
deriving Repr, DecidableEq

/-- The conversation assembled after the user message has been stored
(app.py:177-192): fetch at most 20 messages ordered by `timestamp` descending,
build `history` by inserting each fetched turn at index 0, and prepend the
synthetic system-instruction turn and the canned acknowledgement. -/
def chatConversation (st : Store) (uid sid mode : String) : List Turn :=
  let history_docs := (List.insertionSort byTimestampDesc (messagesOf st uid sid)).take 20
  let history := history_docs.foldl (fun acc m => historyTurn m :: acc) []
  { role := "user", parts := [systemInstructionFor mode] } :: ackTurn :: history

/-- `POST /api/chat` (app.py:151-212): authenticate; reject a falsy `message`
or `session_id` with 400; store the user message; assemble the conversation;
call the model (`gen`); on success store the assistant message and return the
reply, on an exception return 500 with the exception's message. -/
def chat (verify : String → Option String) (gen : List Turn → Except String String)
    (authorization : Option String) (body : ChatBody) (st : Store) : HttpResponse × Store :=
  match verify_token verify authorization with
  | none => (⟨401, .errorMsg "Unauthorized"⟩, st)
  | some uid =>
    let mode := body.mode.getD "general"
    if !strTruthy body.message || !strTruthy body.session_id then
      (⟨400, .errorMsg "Message and session_id are required"⟩, st)
    else
      let msg := body.message.getD ""
      let sid := body.session_id.getD ""
      let st1 := addMessageDoc st uid sid "user" msg
      match gen (chatConversation st1 uid sid mode) with
      | .error e => (⟨500, .errorDetails "An error occurred." e⟩, st1)
      | .ok ai_message =>
        (⟨200, .chatReply ai_message⟩, addMessageDoc st1 uid sid "assistant" ai_message)

/-! ### Helper lemmas and concrete fixtures -/

/-- A concrete identity-provider oracle for concrete instantiations: the id
token `"tok"` belongs to uid `"u1"`, everything else is invalid. -/
def tokenOracle : String → Option String :=
  fun t => if t = "tok" then some "u1" else none

/-- A small concrete store: two users, three sessions, three messages. -/
def sampleStore : Store :=
  { sessions := [(("u1", "s1"), { name := "First", created_at := 0 }),
                 (("u1", "s2"), { name := "Second", created_at := 2 }),
                 (("u2", "s9"), { name := "Other", created_at := 1 })]
    messages := [(("u1", "s1"), { role := "user", content := "hello", timestamp := 3 }),
                 (("u1", "s1"), { role := "assistant", content := "hi", timestamp := 4 }),
                 (("u1", "s2"), { role := "user", content := "x", timestamp := 5 })]
    clock := 6
    nextId := 0 }

theorem messagesOf_addMessageDoc_same (st : Store) (uid sid role content : String) :
    messagesOf (addMessageDoc st uid sid role content) uid sid =
      messagesOf st uid sid ++ [{ role := role, content := content, timestamp := st.clock }] := by
  simp [messagesOf, addMessageDoc, List.filterMap_append]

theorem clock_addMessageDoc (st : Store) (uid sid role content : String) :
    (addMessageDoc st uid sid role content).clock = st.clock + 1 :=
  rfl

theorem foldl_cons_reverse {α β : Type} (f : α → β) (l : List α) :
    ∀ acc : List β, l.foldl (fun acc a => f a :: acc) acc = (l.map f).reverse ++ acc := by
  induction l with
  | nil => intro acc; rfl
  | cons a l ih => intro acc; simp [ih]

theorem find?_filter_congr {α : Type} (p q : α → Bool)
    (h : ∀ a, q a = true → p a = true) (l : List α) :
    (l.filter p).find? q = l.find? q := by
  induction l with
  | nil => rfl
  | cons a l ih =>
    by_cases hq : q a = true
    · have hp := h a hq
      simp [List.filter_cons, hp, List.find?_cons, hq, ih]
    · by_cases hp : p a = true <;>
        simp [List.filter_cons, hp, List.find?_cons, hq, ih]

theorem find?_upsertSession_self (key : String × String) (doc : SessionDoc)
    (l : List ((String × String) × SessionDoc)) :
    (upsertSession key doc l).find? (fun e => decide (e.1 = key)) = some (key, doc) := by
  induction l with
  | nil => simp [upsertSession, List.find?_cons]
  | cons e es ih =>
    by_cases he : e.1 = key
    · simp [upsertSession, he, List.find?_cons]
    · simp [upsertSession, he, List.find?_cons, ih]

theorem lookupSession_setSessionDoc_self (st : Store) (uid sid name : String) :
    lookupSession (setSessionDoc st uid sid name) uid sid =
      some { name := name, created_at := st.clock } := by
  simp [lookupSession, setSessionDoc, find?_upsertSession_self]

/-! ### Claims -/

/-- C1: for every authenticated chat request with a truthy message and
session_id whose model call returns `reply`, the handler appends to the
session's message collection exactly one `'user'` message carrying the
request's message and then exactly one `'assistant'` message carrying the
reply, in that order (the user message bears the earlier server timestamp),
and answers 200 with the reply. -/
theorem chat_persists_user_then_assistant
    (verify : String → Option String) (gen : List Turn → Except String String)
    (authorization : Option String) (body : ChatBody) (st : Store) (uid reply : String)
    (hauth : verify_token verify authorization = some uid)
    (hmsg : strTruthy body.message = true)
    (hsid : strTruthy body.session_id = true)
    (hgen : gen (chatConversation
        (addMessageDoc st uid (body.session_id.getD "") "user" (body.message.getD ""))
        uid (body.session_id.getD "") (body.mode.getD "general")) = Except.ok reply) :
    messagesOf (chat verify gen authorization body st).2 uid (body.session_id.getD "") =
      messagesOf st uid (body.session_id.getD "") ++
        [{ role := "user", content := body.message.getD "", timestamp := st.clock },
         { role := "assistant", content := reply, timestamp := st.clock + 1 }]
    ∧ (chat verify gen authorization body st).1 = ⟨200, .chatReply reply⟩ := by
  simp [chat, hauth, hmsg, hsid, hgen, messagesOf_addMessageDoc_same, clock_addMessageDoc,
    List.append_assoc]

/-- C1 witness: a concrete authenticated chat request against the sample
store persists the user message then the assistant reply. -/
theorem chat_persists_user_then_assistant_witness :
    messagesOf (chat tokenOracle (fun _ => Except.ok "echo") (some "Bearer tok")
        { message := some "ping", mode := none, session_id := some "s1" } sampleStore).2 "u1" "s1" =
      messagesOf sampleStore "u1" "s1" ++
        [{ role := "user", content := "ping", timestamp := 6 },
         { role := "assistant", content := "echo", timestamp := 7 }]
    ∧ (chat tokenOracle (fun _ => Except.ok "echo") (some "Bearer tok")
        { message := some "ping", mode := none, session_id := some "s1" } sampleStore).1 =
      ⟨200, .chatReply "echo"⟩ :=
  chat_persists_user_then_assistant tokenOracle (fun _ => Except.ok "echo") (some "Bearer tok")
    { message := some "ping", mode := none, session_id := some "s1" } sampleStore "u1" "echo"
    (by decide) (by decide) (by decide) rfl

/-- C2: a request whose token verification fails is answered 401 with body
`{"error": "Unauthorized"}` by every one of the five routes, the store is
returned unchanged (no store write), and the chat result does not depend on
the model oracle (no inference call). -/
theorem unauthorized_rejects_all_routes (verify : String → Option String)
    (authorization : Option String)
    (hauth : verify_token verify authorization = none) :
    (∀ st, get_chat_sessions verify authorization st = (⟨401, .errorMsg "Unauthorized"⟩, st))
    ∧ (∀ nowLabel cbody st,
        create_session verify nowLabel authorization cbody st = (⟨401, .errorMsg "Unauthorized"⟩, st))
    ∧ (∀ sid st,
        get_session_messages verify sid authorization st = (⟨401, .errorMsg "Unauthorized"⟩, st))
    ∧ (∀ sid st,
        delete_session verify sid authorization st = (⟨401, .errorMsg "Unauthorized"⟩, st))
    ∧ (∀ gen gen' body st,
        chat verify gen authorization body st = (⟨401, .errorMsg "Unauthorized"⟩, st)
        ∧ chat verify gen authorization body st = chat verify gen' authorization body st) := by
  refine ⟨?_, ?_, ?_, ?_, ?_⟩ <;> intros <;>
    simp [get_chat_sessions, create_session, get_session_messages, delete_session, chat, hauth]

/-- C2 witness: a concrete request with no Authorization header is rejected
by all five routes with 401 and an unchanged store. -/
theorem unauthorized_rejects_all_routes_witness :
    get_chat_sessions tokenOracle none sampleStore =
      (⟨401, .errorMsg "Unauthorized"⟩, sampleStore) :=
  ((unauthorized_rejects_all_routes tokenOracle none rfl).1 sampleStore)

/-- C5: an authenticated chat request whose message or session_id is missing
or empty is answered 400 with error text "Message and session_id are
required", and the store is returned exactly as it came in (no write happens
before the check). -/
theorem chat_validation_400 (verify : String → Option String)
    (gen : List Turn → Except String String) (authorization : Option String)
    (body : ChatBody) (st : Store) (uid : String)
    (hauth : verify_token verify authorization = some uid)
    (hfalsy : strTruthy body.message = false ∨ strTruthy body.session_id = false) :
    chat verify gen authorization body st =
      (⟨400, .errorMsg "Message and session_id are required"⟩, st) := by
  rcases hfalsy with h | h <;> simp [chat, hauth, h]

/-- C5 witness: a concrete authenticated chat request with an empty message
is answered 400 and the sample store is unchanged. -/
theorem chat_validation_400_witness :
    chat tokenOracle (fun _ => Except.ok "echo") (some "Bearer tok")
        { message := some "", mode := none, session_id := some "s1" } sampleStore =
      (⟨400, .errorMsg "Message and session_id are required"⟩, sampleStore) :=
  chat_validation_400 tokenOracle (fun _ => Except.ok "echo") (some "Bearer tok")
    { message := some "", mode := none, session_id := some "s1" } sampleStore "u1"
    (by decide) (Or.inl (by decide))

/-- C3: for an authenticated, validated chat request the model is called on
exactly `chatConversation` of the post-user-write store, and that conversation
equals the synthetic instruction turn, then the canned acknowledgement turn,
then the at-most-20 most recent stored messages of the session (fetched
newest-first by timestamp, then reversed into chronological order), each
remapped by `historyTurn` (stored role `'assistant'` to `"model"`, every other
stored role to `'user'`, parts carrying the stored content). -/
theorem chat_conversation_assembly (verify : String → Option String)
    (gen : List Turn → Except String String) (authorization : Option String)
    (body : ChatBody) (st : Store) (uid : String)
    (hauth : verify_token verify authorization = some uid)
    (hmsg : strTruthy body.message = true)
    (hsid : strTruthy body.session_id = true) :
    (chat verify gen authorization body st =
      match gen (chatConversation
          (addMessageDoc st uid (body.session_id.getD "") "user" (body.message.getD ""))
          uid (body.session_id.getD "") (body.mode.getD "general")) with
      | .error e =>
        (⟨500, .errorDetails "An error occurred." e⟩,
          addMessageDoc st uid (body.session_id.getD "") "user" (body.message.getD ""))
      | .ok r =>
        (⟨200, .chatReply r⟩,
          addMessageDoc
            (addMessageDoc st uid (body.session_id.getD "") "user" (body.message.getD ""))
            uid (body.session_id.getD "") "assistant" r))
    ∧ (∀ (st' : Store) (u s m : String),
        chatConversation st' u s m =
          { role := "user", parts := [systemInstructionFor m] } :: ackTurn ::
            (((List.insertionSort byTimestampDesc (messagesOf st' u s)).take 20).map
              historyTurn).reverse)
    ∧ (∀ d : MessageDoc,
        historyTurn d =
          { role := if d.role = "assistant" then "model" else "user", parts := [d.content] }) := by
  refine ⟨?_, ?_, fun d => rfl⟩
  · simp [chat, hauth, hmsg, hsid]
  · intro st' u s m
    simp [chatConversation, foldl_cons_reverse]

/-- C3 witness: the conversation assembled for a concrete store equals the
instruction turn, the acknowledgement turn, and the reversed remapped fetch. -/
theorem chat_conversation_assembly_witness :
    chatConversation sampleStore "u1" "s1" "general" =
      { role := "user", parts := [systemInstructionFor "general"] } :: ackTurn ::
        (((List.insertionSort byTimestampDesc (messagesOf sampleStore "u1" "s1")).take 20).map
          historyTurn).reverse :=
  (chat_conversation_assembly tokenOracle (fun _ => Except.ok "echo") (some "Bearer tok")
    { message := some "ping", mode := none, session_id := some "s1" } sampleStore "u1"
    (by decide) (by decide) (by decide)).2.1 sampleStore "u1" "s1" "general"

/-- C8: an authenticated fetch of a session's messages answers 200 with the
session's stored messages ordered by timestamp: the returned list is a
permutation of the session's message collection and is sorted in
non-decreasing timestamp order, and the store is unchanged. -/
theorem get_session_messages_sorted (verify : String → Option String)
    (session_id : String) (authorization : Option String) (st : Store) (uid : String)
    (hauth : verify_token verify authorization = some uid) :
    get_session_messages verify session_id authorization st =
      (⟨200, .messageList (List.insertionSort byTimestamp (messagesOf st uid session_id))⟩, st)
    ∧ List.Perm (List.insertionSort byTimestamp (messagesOf st uid session_id))
        (messagesOf st uid session_id)
    ∧ List.Sorted byTimestamp (List.insertionSort byTimestamp (messagesOf st uid session_id)) :=
  ⟨by simp [get_session_messages, hauth],
   List.perm_insertionSort byTimestamp (messagesOf st uid session_id),
   List.sorted_insertionSort byTimestamp (messagesOf st uid session_id)⟩

/-- C8 witness: fetching session s1 of user u1 from the sample store returns
its two messages oldest first. -/
theorem get_session_messages_sorted_witness :
    get_session_messages tokenOracle "s1" (some "Bearer tok") sampleStore =
      (⟨200, .messageList (List.insertionSort byTimestamp (messagesOf sampleStore "u1" "s1"))⟩,
        sampleStore)
    ∧ List.Perm (List.insertionSort byTimestamp (messagesOf sampleStore "u1" "s1"))
        (messagesOf sampleStore "u1" "s1")
    ∧ List.Sorted byTimestamp (List.insertionSort byTimestamp (messagesOf sampleStore "u1" "s1")) :=
  get_session_messages_sorted tokenOracle "s1" (some "Bearer tok") sampleStore "u1" (by decide)

/-- C9: an authenticated list-sessions request answers 200 with exactly the
requesting user's sessions — the listed pairs are the id and stored name of a
permutation of the user's session documents, ordered newest-first by
created_at — and the store is unchanged. -/
theorem get_chat_sessions_listing (verify : String → Option String)
    (authorization : Option String) (st : Store) (uid : String)
    (hauth : verify_token verify authorization = some uid) :
    get_chat_sessions verify authorization st =
      (⟨200, .sessionList ((List.insertionSort byCreatedDesc (sessionsOf st uid)).map
        (fun e => (e.1, e.2.name)))⟩, st)
    ∧ List.Perm (List.insertionSort byCreatedDesc (sessionsOf st uid)) (sessionsOf st uid)
    ∧ List.Sorted byCreatedDesc (List.insertionSort byCreatedDesc (sessionsOf st uid)) :=
  ⟨by simp [get_chat_sessions, hauth],
   List.perm_insertionSort byCreatedDesc (sessionsOf st uid),
   List.sorted_insertionSort byCreatedDesc (sessionsOf st uid)⟩

/-- C9 witness: listing sessions of user u1 from the sample store yields u1's
two sessions newest first. -/
theorem get_chat_sessions_listing_witness :
    get_chat_sessions tokenOracle (some "Bearer tok") sampleStore =
      (⟨200, .sessionList ((List.insertionSort byCreatedDesc (sessionsOf sampleStore "u1")).map
        (fun e => (e.1, e.2.name)))⟩, sampleStore)
    ∧ List.Perm (List.insertionSort byCreatedDesc (sessionsOf sampleStore "u1"))
        (sessionsOf sampleStore "u1")
    ∧ List.Sorted byCreatedDesc
        (List.insertionSort byCreatedDesc (sessionsOf sampleStore "u1")) :=
  get_chat_sessions_listing tokenOracle (some "Bearer tok") sampleStore "u1" (by decide)

/-- C10: the system instruction heading every assembled chat conversation is
selected by the request's mode: each of the three known modes selects its own
prompt, an absent mode and every unknown mode value select the general
prompt. -/
theorem chat_mode_fallback (st : Store) (uid sid : String) (body : ChatBody) :
    (chatConversation st uid sid (body.mode.getD "general")).head? =
      some { role := "user", parts := [systemInstructionFor (body.mode.getD "general")] }
    ∧ (body.mode = some "coding_coach" →
        systemInstructionFor (body.mode.getD "general") = codingCoachPrompt)
    ∧ (body.mode = some "debugging_assistant" →
        systemInstructionFor (body.mode.getD "general") = debuggingAssistantPrompt)
    ∧ (body.mode = some "general" →
        systemInstructionFor (body.mode.getD "general") = generalPrompt)
    ∧ (body.mode = none →
        systemInstructionFor (body.mode.getD "general") = generalPrompt)
    ∧ (∀ m : String, body.mode = some m →
        m ∉ (["coding_coach", "debugging_assistant", "general"] : List String) →
        systemInstructionFor (body.mode.getD "general") = generalPrompt) := by
  refine ⟨rfl, ?_, ?_, ?_, ?_, ?_⟩
  · intro h; rw [h]; rfl
  · intro h; rw [h]; rfl
  · intro h; rw [h]; rfl
  · intro h; rw [h]; rfl
  · intro m hm hnot
    rw [hm]
    simp only [List.mem_cons, List.not_mem_nil, or_false, not_or] at hnot
    simp [systemInstructionFor, SYSTEM_PROMPTS, hnot.1, hnot.2.1, hnot.2.2]

/-- C10 witness: the unknown mode "klingon" falls back to the general prompt,
and mode "coding_coach" selects the coding-coach prompt. -/
theorem chat_mode_fallback_witness :
    systemInstructionFor "klingon" = generalPrompt
    ∧ systemInstructionFor "coding_coach" = codingCoachPrompt :=
  ⟨(chat_mode_fallback emptyStore "u1" "s1"
      { message := some "q", mode := some "klingon", session_id := some "s1" }).2.2.2.2.2
      "klingon" rfl (by decide),
   (chat_mode_fallback emptyStore "u1" "s1"
      { message := some "q", mode := some "coding_coach", session_id := some "s1" }).2.1 rfl⟩

theorem strTruthy_some_of_ne (s : String) (h : s ≠ "") : strTruthy (some s) = true := by
  simp only [strTruthy]
  rw [Bool.not_eq_true', Bool.eq_false_iff]
  intro hb
  exact h ((String.isEmpty_iff s).mp hb)

/-- C6 counterexample: an authenticated create-session request that supplies
the empty string as session_name does not get it as the document key — the
handler takes the auto-id branch, so the response carries the auto-generated
id and the timestamped default name, and no document exists under the supplied
key. -/
theorem create_session_empty_name_cex :
    (create_session tokenOracle "2025-01-01 00:00" (some "Bearer tok")
        (some { session_name := some "" }) emptyStore).1 =
      ⟨200, .sessionCreated "auto-0" "Chat - 2025-01-01 00:00"⟩
    ∧ lookupSession (create_session tokenOracle "2025-01-01 00:00" (some "Bearer tok")
        (some { session_name := some "" }) emptyStore).2 "u1" "" = none
    ∧ "auto-0" ≠ "" := by decide

/-- C6 (amended): on an authenticated create-session request, a supplied
non-empty session_name is used verbatim as the document key and stored name,
and a lookup under that key then finds the document; when the name is absent
or empty, an auto-generated key is used and the stored name defaults to the
timestamped label "Chat - <timestamp>". In both cases the response carries the
resulting session_id and name. -/
theorem create_session_key_and_default (verify : String → Option String) (nowLabel : String)
    (authorization : Option String) (body : Option CreateSessionBody) (st : Store) (uid : String)
    (hauth : verify_token verify authorization = some uid) :
    (∀ s : String, (body.getD { session_name := none }).session_name = some s → s ≠ "" →
      create_session verify nowLabel authorization body st =
        (⟨200, .sessionCreated s s⟩, setSessionDoc st uid s s)
      ∧ lookupSession (create_session verify nowLabel authorization body st).2 uid s =
          some { name := s, created_at := st.clock })
    ∧ ((body.getD { session_name := none }).session_name = none ∨
        (body.getD { session_name := none }).session_name = some "" →
      create_session verify nowLabel authorization body st =
        (⟨200, .sessionCreated (autoId st.nextId) ("Chat - " ++ nowLabel)⟩,
          setSessionDoc { st with nextId := st.nextId + 1 } uid (autoId st.nextId)
            ("Chat - " ++ nowLabel))
      ∧ lookupSession (create_session verify nowLabel authorization body st).2 uid
          (autoId st.nextId) =
          some { name := "Chat - " ++ nowLabel, created_at := st.clock }) := by
  constructor
  · intro s hs hne
    have ht : strTruthy (some s) = true := strTruthy_some_of_ne s hne
    have heq : create_session verify nowLabel authorization body st =
        (⟨200, .sessionCreated s s⟩, setSessionDoc st uid s s) := by
      simp [create_session, hauth, hs, ht]
    exact ⟨heq, by rw [heq]; exact lookupSession_setSessionDoc_self st uid s s⟩
  · intro hcase
    have ht : strTruthy (body.getD { session_name := none }).session_name = false := by
      rcases hcase with h | h <;> simp [strTruthy, h, String.isEmpty]
    have heq : create_session verify nowLabel authorization body st =
        (⟨200, .sessionCreated (autoId st.nextId) ("Chat - " ++ nowLabel)⟩,
          setSessionDoc { st with nextId := st.nextId + 1 } uid (autoId st.nextId)
            ("Chat - " ++ nowLabel)) := by
      simp [create_session, hauth, ht]
    exact ⟨heq, by
      rw [heq]
      exact lookupSession_setSessionDoc_self { st with nextId := st.nextId + 1 } uid
        (autoId st.nextId) ("Chat - " ++ nowLabel)⟩

/-- C6 witness: creating a session named "myname" in the sample store stores
it under the key "myname" and a later lookup under that name finds it. -/
theorem create_session_key_and_default_witness :
    create_session tokenOracle "2025-01-01 00:00" (some "Bearer tok")
        (some { session_name := some "myname" }) sampleStore =
      (⟨200, .sessionCreated "myname" "myname"⟩,
        setSessionDoc sampleStore "u1" "myname" "myname")
    ∧ lookupSession (create_session tokenOracle "2025-01-01 00:00" (some "Bearer tok")
        (some { session_name := some "myname" }) sampleStore).2 "u1" "myname" =
      some { name := "myname", created_at := 6 } :=
  (create_session_key_and_default tokenOracle "2025-01-01 00:00" (some "Bearer tok")
      (some { session_name := some "myname" }) sampleStore "u1" (by decide)).1
    "myname" rfl (by decide)

/-- C7: an authenticated delete-session request answers success, leaves every
message of every session untouched (in particular the deleted session's
messages subcollection), removes the named session document, leaves the
clock untouched, and leaves every other session document of every user
unchanged. -/
theorem delete_session_frame (verify : String → Option String) (session_id : String)
    (authorization : Option String) (st : Store) (uid : String)
    (hauth : verify_token verify authorization = some uid) :
    (delete_session verify session_id authorization st).1 = ⟨200, .deleteOk⟩
    ∧ (delete_session verify session_id authorization st).2.messages = st.messages
    ∧ lookupSession (delete_session verify session_id authorization st).2 uid session_id = none
    ∧ (delete_session verify session_id authorization st).2.clock = st.clock
    ∧ ∀ u s, (u, s) ≠ (uid, session_id) →
        lookupSession (delete_session verify session_id authorization st).2 u s =
          lookupSession st u s := by
  simp only [delete_session, hauth]
  refine ⟨trivial, trivial, ?_, trivial, ?_⟩
  · have h3 : (st.sessions.filter fun e => !decide (e.1 = (uid, session_id))).find?
        (fun e => decide (e.1 = (uid, session_id))) = none := by
      rw [List.find?_eq_none]
      intro x hx
      rcases List.mem_filter.mp hx with ⟨-, hp⟩
      simpa using hp
    simp [lookupSession, h3]
  · intro u s hne
    have himp : ∀ a : (String × String) × SessionDoc,
        decide (a.1 = (u, s)) = true → (!decide (a.1 = (uid, session_id))) = true := by
      intro a ha
      have ha' : a.1 = (u, s) := by simpa using ha
      simp [ha', hne]
    simp [lookupSession, find?_filter_congr _ _ himp]

/-- C7 witness: deleting session s1 of user u1 from the sample store keeps all
messages (the orphaned subcollection included), removes s1, and keeps s2 and
u2's s9. -/
theorem delete_session_frame_witness :
    (delete_session tokenOracle "s1" (some "Bearer tok") sampleStore).1 = ⟨200, .deleteOk⟩
    ∧ (delete_session tokenOracle "s1" (some "Bearer tok") sampleStore).2.messages =
        sampleStore.messages
    ∧ lookupSession (delete_session tokenOracle "s1" (some "Bearer tok") sampleStore).2
        "u1" "s1" = none :=
  (fun h => ⟨h.1, h.2.1, h.2.2.1⟩)
    (delete_session_frame tokenOracle "s1" (some "Bearer tok") sampleStore "u1" (by decide))

/-- C4 counterexample: an authenticated chat request with a missing message is
an error response with status 400 — neither 401 nor 500 — refuting the claim
that every error response is a 401 or a 500. -/
theorem chat_error_status_400_cex :
    (chat tokenOracle (fun _ => Except.ok "echo") (some "Bearer tok")
        { message := none, mode := none, session_id := some "s1" } emptyStore).1 =
      ⟨400, .errorMsg "Message and session_id are required"⟩
    ∧ (400 : Nat) ≠ 401 ∧ (400 : Nat) ≠ 500 := by decide

/-- C4 (amended): every response of the four session/message routes has status
200, 401 or 500; every chat response has status 200, 400, 401 or 500; a chat
401 carries the Unauthorized body, a chat 400 carries the validation error
text, and a chat 500 carries the exception's message in its details. -/
theorem error_responses_classified (verify : String → Option String)
    (authorization : Option String) :
    (∀ st, (get_chat_sessions verify authorization st).1.status = 200 ∨
        (get_chat_sessions verify authorization st).1.status = 401 ∨
        (get_chat_sessions verify authorization st).1.status = 500)
    ∧ (∀ nowLabel cbody st, (create_session verify nowLabel authorization cbody st).1.status = 200 ∨
        (create_session verify nowLabel authorization cbody st).1.status = 401 ∨
        (create_session verify nowLabel authorization cbody st).1.status = 500)
    ∧ (∀ sid st, (get_session_messages verify sid authorization st).1.status = 200 ∨
        (get_session_messages verify sid authorization st).1.status = 401 ∨
        (get_session_messages verify sid authorization st).1.status = 500)
    ∧ (∀ sid st, (delete_session verify sid authorization st).1.status = 200 ∨
        (delete_session verify sid authorization st).1.status = 401 ∨
        (delete_session verify sid authorization st).1.status = 500)
    ∧ (∀ gen body st, (chat verify gen authorization body st).1.status = 200 ∨
        (chat verify gen authorization body st).1.status = 400 ∨
        (chat verify gen authorization body st).1.status = 401 ∨
        (chat verify gen authorization body st).1.status = 500)
    ∧ (∀ gen body st, (chat verify gen authorization body st).1.status = 401 →
        (chat verify gen authorization body st).1.body = .errorMsg "Unauthorized")
    ∧ (∀ gen body st, (chat verify gen authorization body st).1.status = 400 →
        (chat verify gen authorization body st).1.body =
          .errorMsg "Message and session_id are required")
    ∧ (∀ gen body st, (chat verify gen authorization body st).1.status = 500 →
        ∃ e, (chat verify gen authorization body st).1.body =
          .errorDetails "An error occurred." e) := by
  have hchat : ∀ (gen : List Turn → Except String String) (body : ChatBody) (st : Store),
      (chat verify gen authorization body st).1 = ⟨401, .errorMsg "Unauthorized"⟩ ∨
      (chat verify gen authorization body st).1 =
        ⟨400, .errorMsg "Message and session_id are required"⟩ ∨
      (∃ e, (chat verify gen authorization body st).1 =
        ⟨500, .errorDetails "An error occurred." e⟩) ∨
      (∃ r, (chat verify gen authorization body st).1 = ⟨200, .chatReply r⟩) := by
    intro gen body st
    cases hv : verify_token verify authorization with
    | none => exact Or.inl (by simp [chat, hv])
    | some uid =>
      by_cases hb : (!strTruthy body.message || !strTruthy body.session_id) = true
      · exact Or.inr (Or.inl (by simp [chat, hv, hb]))
      · rw [Bool.not_eq_true] at hb
        cases hg : gen (chatConversation
            (addMessageDoc st uid (body.session_id.getD "") "user" (body.message.getD ""))
            uid (body.session_id.getD "") (body.mode.getD "general")) with
        | error e => exact Or.inr (Or.inr (Or.inl ⟨e, by simp [chat, hv, hb, hg]⟩))
        | ok r => exact Or.inr (Or.inr (Or.inr ⟨r, by simp [chat, hv, hb, hg]⟩))
  refine ⟨?_, ?_, ?_, ?_, ?_, ?_, ?_, ?_⟩
  · intro st
    cases hv : verify_token verify authorization <;> simp [get_chat_sessions, hv]
  · intro nowLabel cbody st
    cases hv : verify_token verify authorization with
    | none => simp [create_session, hv]
    | some uid =>
      by_cases hb : strTruthy (cbody.getD { session_name := none }).session_name = true
      · simp [create_session, hv, hb]
      · rw [Bool.not_eq_true] at hb
        simp [create_session, hv, hb]
  · intro sid st
    cases hv : verify_token verify authorization <;> simp [get_session_messages, hv]
  · intro sid st
    cases hv : verify_token verify authorization <;> simp [delete_session, hv]
  · intro gen body st
    rcases hchat gen body st with h | h | ⟨e, h⟩ | ⟨r, h⟩ <;> simp [h]
  · intro gen body st
    rcases hchat gen body st with h | h | ⟨e, h⟩ | ⟨r, h⟩ <;> simp [h]
  · intro gen body st
    rcases hchat gen body st with h | h | ⟨e, h⟩ | ⟨r, h⟩ <;> simp [h]
  · intro gen body st
    rcases hchat gen body st with h | h | ⟨e, h⟩ | ⟨r, h⟩ <;> simp [h]

/-- C4 witness: a model exception on a concrete authenticated chat request
surfaces as a 500 whose details carry the exception's message. -/
theorem error_responses_classified_witness :
    ∃ e, (chat tokenOracle (fun _ => Except.error "boom") (some "Bearer tok")
        { message := some "q", mode := none, session_id := some "s1" } emptyStore).1.body =
      .errorDetails "An error occurred." e :=
  (error_responses_classified tokenOracle (some "Bearer tok")).2.2.2.2.2.2.2
    (fun _ => Except.error "boom")
    { message := some "q", mode := none, session_id := some "s1" } emptyStore (by decide)

end CodeSensei
